import Mathlib

/-!
Verification of the CloudLog Analyst credential resolver and log normalizer.

The definitions below are a shallow embedding of the TypeScript source:
  * `SecretsContext` (loadFromEnv / setSecrets / clearSecrets) from the
    secrets-context module;
  * `fetchGCPLogs`, `parseLogs`, `generateReport`, `generateCostReport`
    from services/geminiService.ts.

JavaScript string truthiness (`if (v)`, `a || b`) is modelled explicitly:
a value of type `Option String` is truthy iff it is `some s` with `s ≠ ""`.
Network and AI responses are modelled as explicit inputs; JSON.parse is an
abstract decode function supplied as a parameter that returns `none`
exactly when parsing fails.
-/

namespace CloudLog

/-- One environment-variable lookup layer, keyed by variable name.
`none` models both an absent binding and an undefined source object. -/
structure EnvSources where
  processEnv : String → Option String
  importMetaEnv : String → Option String
  windowEnv : String → Option String

/-- JS truthiness of an optional string: present and non-empty. -/
def isTruthy (o : Option String) : Bool :=
  match o with
  | some s => s ≠ ""
  | none => false

/-- JS `a || b` for an optional string against a string default. -/
def orTruthy (a : Option String) (b : String) : String :=
  match a with
  | some s => if s = "" then b else s
  | none => b

/-- Embeds `getEnvValue` from the secrets context: for one key, consult
`process.env`, then `import.meta.env`, then `window._env_`, returning the
first truthy value. -/
def getEnvValue (env : EnvSources) (key : String) : Option String :=
  if isTruthy (env.processEnv key) then env.processEnv key
  else if isTruthy (env.importMetaEnv key) then env.importMetaEnv key
  else if isTruthy (env.windowEnv key) then env.windowEnv key
  else none

/-- Project-id key names in scan order (standard, Vite, React). -/
def pidKeys : List String :=
  ["GCP_PROJECT_ID", "VITE_GCP_PROJECT_ID", "REACT_APP_GCP_PROJECT_ID"]

/-- Access-token key names in scan order (standard, Vite, React). -/
def tokenKeys : List String :=
  ["GCP_ACCESS_TOKEN", "VITE_GCP_ACCESS_TOKEN", "REACT_APP_GCP_ACCESS_TOKEN"]

/-- The `for ... break` scan in `loadFromEnv`: first key whose
`getEnvValue` is truthy wins (`getEnvValue` never returns `some ""`). -/
def scanKeys (env : EnvSources) : List String → Option String
  | [] => none
  | k :: rest =>
    match getEnvValue env k with
    | some v => some v
    | none => scanKeys env rest

/-- The credential state held by the secrets provider: the two React state
fields, the env-managed flag, and the two sessionStorage slots
(`gcp_project_id`, `gcp_access_token`). -/
structure SecretsState where
  projectId : String
  accessToken : String
  isEnvManaged : Bool
  storedProjectId : Option String
  storedAccessToken : Option String
deriving DecidableEq, Repr

/-- Embeds `loadFromEnv`: scan the pid keys and the token keys
independently; on finding both, set the fields, persist both to session
storage and mark env-managed, returning `true`; otherwise return `false`
and leave the state untouched. -/
def loadFromEnv (env : EnvSources) (s : SecretsState) : Bool × SecretsState :=
  let foundPid := scanKeys env pidKeys
  let foundToken := scanKeys env tokenKeys
  match foundPid, foundToken with
  | some pid, some token =>
    (true,
      { projectId := pid
        accessToken := token
        isEnvManaged := true
        storedProjectId := some pid
        storedAccessToken := some token })
  | some _, none => (false, s)
  | none, some _ => (false, s)
  | none, none => (false, s)

/-- Embeds `setSecrets`: overwrite both fields, persist both, and drop the
env-managed flag. -/
def setSecrets (pid token : String) (_s : SecretsState) : SecretsState :=
  { projectId := pid
    accessToken := token
    isEnvManaged := false
    storedProjectId := some pid
    storedAccessToken := some token }

/-- Embeds `clearSecrets`: empty both fields, clear the flag, remove the
persisted values. -/
def clearSecrets (_s : SecretsState) : SecretsState :=
  { projectId := ""
    accessToken := ""
    isEnvManaged := false
    storedProjectId := none
    storedAccessToken := none }

/-- Embeds the derived `hasSecrets` predicate. -/
def hasSecrets (s : SecretsState) : Bool :=
  s.projectId ≠ "" && s.accessToken ≠ ""

/-! ## JSON values and JSON.stringify

A small model of JSON values, enough to express `JSON.stringify` as used
on `jsonPayload` objects and on the log slice sent to the report prompt.
Escaping of special characters inside strings is elided. -/

inductive Jso where
  | null : Jso
  | bool : Bool → Jso
  | num : Int → Jso
  | str : String → Jso
  | arr : List Jso → Jso
  | obj : List (String × Jso) → Jso

/-- A double-quoted JSON string (escaping elided). -/
def jsQuote (s : String) : String := "\"" ++ s ++ "\""

mutual

/-- `JSON.stringify` on the JSON model. -/
def stringify : Jso → String
  | .null => "null"
  | .bool b => if b then "true" else "false"
  | .num n => toString n
  | .str s => jsQuote s
  | .arr xs => "[" ++ stringifyArr xs ++ "]"
  | .obj fs => "\x7b" ++ stringifyObj fs ++ "\x7d"

/-- Comma-joined serialization of array elements. -/
def stringifyArr : List Jso → String
  | [] => ""
  | [x] => stringify x
  | x :: y :: xs => stringify x ++ "," ++ stringifyArr (y :: xs)

/-- Comma-joined serialization of object fields. -/
def stringifyObj : List (String × Jso) → String
  | [] => ""
  | [(k, v)] => jsQuote k ++ ":" ++ stringify v
  | (k, v) :: f :: fs => jsQuote k ++ ":" ++ stringify v ++ "," ++ stringifyObj (f :: fs)

end

/-! ## The canonical log entry and the native GCP entry -/

/-- The runtime shape of a produced `LogEntry`. The TypeScript interface
declares `timestamp: string` and `severity: Severity`, but neither mapping
path validates them, so at runtime `timestamp` is whatever the entry
carried (possibly absent) and `severity` is an arbitrary string. -/
structure LogEntry where
  timestamp : Option String
  severity : String
  service : String
  message : String
  traceId : Option String
deriving DecidableEq, Repr

/-- The `resource.labels` bag of a native logging-API entry (only the
labels the mapping consults). -/
structure GCPLabels where
  module_id : Option String
  service_name : Option String
  cluster_name : Option String
deriving Repr

/-- The `resource` object of a native logging-API entry. -/
structure GCPResource where
  type : Option String
  labels : Option GCPLabels
deriving Repr

/-- A native logging-API entry, with the fields `fetchGCPLogs` reads. -/
structure GCPEntry where
  textPayload : Option String
  jsonPayload : Option Jso
  resource : Option GCPResource
  timestamp : Option String
  severity : Option String
  trace : Option String

/-- `entry.resource?.labels?.module_id` as an optional chain. -/
def moduleIdOf (e : GCPEntry) : Option String :=
  (e.resource.bind (·.labels)).bind (·.module_id)

/-- `entry.resource?.labels?.service_name` as an optional chain. -/
def serviceNameOf (e : GCPEntry) : Option String :=
  (e.resource.bind (·.labels)).bind (·.service_name)

/-- `entry.resource?.labels?.cluster_name` as an optional chain. -/
def clusterNameOf (e : GCPEntry) : Option String :=
  (e.resource.bind (·.labels)).bind (·.cluster_name)

/-- `entry.resource?.type` as an optional chain. -/
def resourceTypeOf (e : GCPEntry) : Option String :=
  e.resource.bind (·.type)

/-- The service chain of `fetchGCPLogs`:
`module_id || service_name || cluster_name || resource.type || "gcp-service"`. -/
def serviceOf (e : GCPEntry) : String :=
  orTruthy (moduleIdOf e)
    (orTruthy (serviceNameOf e)
      (orTruthy (clusterNameOf e)
        (orTruthy (resourceTypeOf e) "gcp-service")))

/-- The message selection of `fetchGCPLogs`: `textPayload` when truthy,
else `JSON.stringify(jsonPayload)` when the payload object is present
(any object is truthy in JS), else the placeholder. -/
def messageOf (e : GCPEntry) : String :=
  orTruthy e.textPayload
    (match e.jsonPayload with
      | some j => stringify j
      | none => "No message content")

/-- The per-entry mapping inside `fetchGCPLogs` from a native entry to the
generic `LogEntry`. -/
def mapGCPEntry (e : GCPEntry) : LogEntry :=
  { timestamp := e.timestamp
    severity := orTruthy e.severity "INFO"
    service := serviceOf e
    message := messageOf e
    traceId := e.trace }

/-! ## fetchGCPLogs response handling -/

/-- The logging-API response as `fetchGCPLogs` observes it: HTTP status,
body text (read on the error path), and the `entries` field of the parsed
JSON body (`none` when absent). -/
structure GCPResponse where
  status : Nat
  body : String
  entries : Option (List GCPEntry)

/-- `response.ok`: status in the 2xx range. -/
def respOk (r : GCPResponse) : Bool :=
  200 ≤ r.status && r.status ≤ 299

/-- Embeds `fetchGCPLogs` after the request is made: non-2xx throws a
`GCP API Error` carrying the status and body text (and the outer catch
rethrows); an absent `entries` field yields `[]`; otherwise each entry is
mapped (an empty `entries` array is truthy in JS, so it also maps to `[]`). -/
def fetchGCPLogs (r : GCPResponse) : Except String (List LogEntry) :=
  if respOk r then
    match r.entries with
    | none => .ok []
    | some es => .ok (es.map mapGCPEntry)
  else
    .error ("GCP API Error (" ++ toString r.status ++ "): " ++ r.body)

/-! ## AI completion calls

Each call is modelled after the network round trip: `responseText` is the
`response.text` the SDK returned (`none` models `undefined`; JS falsiness
also treats `""` as absent), and `jsonParse` is the `JSON.parse`-plus-cast
decode, returning `none` exactly when `JSON.parse` throws. A thrown JS
exception is an `Except.error`. -/

/-- The summary shape from types.ts. -/
structure AnalysisSummary where
  overview : String
  criticalIssues : List String
  recommendations : List String
deriving DecidableEq, Repr

/-- A daily cost point from types.ts. Monetary values are modelled as
rationals; no arithmetic is performed on them in this repository. -/
structure CostEntry where
  date : String
  cost : Rat
  currency : String
deriving DecidableEq, Repr

/-- A per-service cost from types.ts. -/
structure ServiceCost where
  service : String
  cost : Rat
deriving DecidableEq, Repr

/-- The cost-report shape from types.ts. -/
structure CostReport where
  totalMonthToDate : Rat
  projectedEndOfMonth : Rat
  dailyTrend : List CostEntry
  serviceBreakdown : List ServiceCost
  aiAnalysis : String
  optimizationTips : List String
  finOpsScore : Option Rat
deriving DecidableEq, Repr

/-- Embeds the tail of `parseLogs`: falsy `response.text` returns `[]`;
a `JSON.parse` failure is caught, logged, and returns `[]`; a successful
parse is cast to `LogEntry[]` and returned with no field validation. -/
def parseLogs (jsonParse : String → Option (List LogEntry))
    (responseText : Option String) : Except String (List LogEntry) :=
  if isTruthy responseText then
    match jsonParse (responseText.getD "") with
    | some data => .ok data
    | none => .ok []
  else
    .ok []

/-- Embeds the tail of `generateReport`: falsy `response.text` returns the
"Could not generate report." default; a `JSON.parse` failure is caught and
returns the "Error parsing AI response." default. -/
def generateReport (jsonParse : String → Option AnalysisSummary)
    (responseText : Option String) : Except String AnalysisSummary :=
  if isTruthy responseText then
    match jsonParse (responseText.getD "") with
    | some s => .ok s
    | none => .ok ⟨"Error parsing AI response.", [], []⟩
  else
    .ok ⟨"Could not generate report.", [], []⟩

/-- Embeds the tail of `generateCostReport`: falsy `response.text` throws
`Failed to generate cost report`, and the uncaught `JSON.parse` call
propagates its exception on malformed text. -/
def generateCostReport (jsonParse : String → Option CostReport)
    (responseText : Option String) : Except String CostReport :=
  if isTruthy responseText then
    match jsonParse (responseText.getD "") with
    | some r => .ok r
    | none => .error "SyntaxError: JSON.parse failed"
  else
    .error "Failed to generate cost report"

/-! ## The report prompt built by generateReport -/

/-- `JSON.stringify` of one produced log entry; `undefined` fields
(`timestamp` when the native entry had none, `traceId` when absent) are
omitted, as `JSON.stringify` omits `undefined`-valued keys. -/
def logEntryJso (l : LogEntry) : Jso :=
  Jso.obj
    ((match l.timestamp with
      | some t => [("timestamp", Jso.str t)]
      | none => []) ++
     [("severity", Jso.str l.severity),
      ("service", Jso.str l.service),
      ("message", Jso.str l.message)] ++
     (match l.traceId with
      | some t => [("traceId", Jso.str t)]
      | none => []))

/-- `logContext = JSON.stringify(logs.slice(0, 100))` in `generateReport`. -/
def logContext (logs : List LogEntry) : String :=
  stringify (Jso.arr ((logs.take 100).map logEntryJso))

/-- The contents string `generateReport` sends to the model (template
indentation whitespace elided). -/
def buildReportPrompt (logs : List LogEntry) : String :=
  "Analyze these structured logs and provide a system health report.\n\nLogs:\n"
    ++ logContext logs

/-- `generateReport` end to end: the model is an arbitrary function from
the prompt to the optional `response.text`. -/
def generateReportFromLogs (model : String → Option String)
    (jsonParse : String → Option AnalysisSummary)
    (logs : List LogEntry) : Except String AnalysisSummary :=
  generateReport jsonParse (model (buildReportPrompt logs))

/-! ## Concrete states and environments used to instantiate theorems -/

/-- The initial secrets state: empty fields, flag down, empty storage. -/
def s0 : SecretsState :=
  { projectId := ""
    accessToken := ""
    isEnvManaged := false
    storedProjectId := none
    storedAccessToken := none }

/-- An environment source that never yields a value. -/
def noEnv : String → Option String := fun _ => none

/-- An environment with both credentials in `process.env` under the
standard convention. -/
def envBoth : EnvSources :=
  { processEnv := fun k =>
      if k = "GCP_PROJECT_ID" then some "proj-1"
      else if k = "GCP_ACCESS_TOKEN" then some "tok-1"
      else none
    importMetaEnv := noEnv
    windowEnv := noEnv }

/-- An environment with only the project id set. -/
def envPidOnly : EnvSources :=
  { processEnv := fun k => if k = "GCP_PROJECT_ID" then some "proj-1" else none
    importMetaEnv := noEnv
    windowEnv := noEnv }

/-- An environment with the project id under the standard `process.env`
key and the token only under the Vite key of `import.meta.env`. -/
def envCross : EnvSources :=
  { processEnv := fun k => if k = "GCP_PROJECT_ID" then some "proj-1" else none
    importMetaEnv := fun k => if k = "VITE_GCP_ACCESS_TOKEN" then some "tok-2" else none
    windowEnv := noEnv }

/-- An environment where the Vite project-id key is set in `process.env`
while the runtime-injected global holds the standard project-id key. -/
def envRuntimeShadow : EnvSources :=
  { processEnv := fun k => if k = "VITE_GCP_PROJECT_ID" then some "build-pid" else none
    importMetaEnv := noEnv
    windowEnv := fun k => if k = "GCP_PROJECT_ID" then some "runtime-pid" else none }

/-! ## Claims about the credential resolver -/

/-- C1: when the two key scans find both a project id and a token,
`loadFromEnv` returns `true`, stores exactly the found values in the two
fields and in session storage under `gcp_project_id` / `gcp_access_token`,
and raises the env-managed flag; when either scan comes up empty it
returns `false` and the state is exactly the state before the call. -/
theorem loadFromEnv_spec (env : EnvSources) (s : SecretsState) :
    (∀ pid token,
      scanKeys env pidKeys = some pid → scanKeys env tokenKeys = some token →
      loadFromEnv env s =
        (true,
          { projectId := pid
            accessToken := token
            isEnvManaged := true
            storedProjectId := some pid
            storedAccessToken := some token })) ∧
    ((scanKeys env pidKeys = none ∨ scanKeys env tokenKeys = none) →
      loadFromEnv env s = (false, s)) := by
  constructor
  · intro pid token hp ht
    simp [loadFromEnv, hp, ht]
  · intro h
    rcases h with h | h
    · cases ht : scanKeys env tokenKeys <;> simp [loadFromEnv, h, ht]
    · cases hp : scanKeys env pidKeys <;> simp [loadFromEnv, h, hp]

/-- Witness for C1: a concrete environment holding both values loads
them, and one missing the token leaves the initial state unchanged. -/
theorem loadFromEnv_spec_witness :
    loadFromEnv envBoth s0 =
      (true,
        { projectId := "proj-1"
          accessToken := "tok-1"
          isEnvManaged := true
          storedProjectId := some "proj-1"
          storedAccessToken := some "tok-1" }) ∧
    loadFromEnv envPidOnly s0 = (false, s0) :=
  ⟨(loadFromEnv_spec envBoth s0).1 "proj-1" "tok-1" (by decide) (by decide),
   (loadFromEnv_spec envPidOnly s0).2 (Or.inr (by decide))⟩

/-- The project-id key of each naming convention, in scan order. -/
def pidKey : Fin 3 → String
  | 0 => "GCP_PROJECT_ID"
  | 1 => "VITE_GCP_PROJECT_ID"
  | 2 => "REACT_APP_GCP_PROJECT_ID"

/-- The access-token key of each naming convention, in scan order. -/
def tokenKey : Fin 3 → String
  | 0 => "GCP_ACCESS_TOKEN"
  | 1 => "VITE_GCP_ACCESS_TOKEN"
  | 2 => "REACT_APP_GCP_ACCESS_TOKEN"

/-- C6: the pid scan and the token scan are independent: when the project
id is resolvable only under convention `i` and the token only under a
different convention `j`, `loadFromEnv` combines the two cross-convention
values and reports success. -/
theorem loadFromEnv_cross_convention (env : EnvSources) (s : SecretsState)
    (i j : Fin 3) (hij : i ≠ j) (p t : String)
    (hp : ∀ k, getEnvValue env (pidKey k) = if k = i then some p else none)
    (ht : ∀ k, getEnvValue env (tokenKey k) = if k = j then some t else none) :
    loadFromEnv env s =
      (true,
        { projectId := p
          accessToken := t
          isEnvManaged := true
          storedProjectId := some p
          storedAccessToken := some t }) := by
  have h0 := hp 0; have h1 := hp 1; have h2 := hp 2
  have g0 := ht 0; have g1 := ht 1; have g2 := ht 2
  simp only [pidKey, tokenKey] at h0 h1 h2 g0 g1 g2
  have hps : scanKeys env pidKeys = some p := by
    fin_cases i <;> simp_all [scanKeys, pidKeys]
  have hts : scanKeys env tokenKeys = some t := by
    fin_cases j <;> simp_all [scanKeys, tokenKeys]
  simp [loadFromEnv, hps, hts]

/-- Witness for C6: a project id set only under the standard `process.env`
key combines with a token available only under the Vite key. -/
theorem loadFromEnv_cross_convention_witness :
    loadFromEnv envCross s0 =
      (true,
        { projectId := "proj-1"
          accessToken := "tok-2"
          isEnvManaged := true
          storedProjectId := some "proj-1"
          storedAccessToken := some "tok-2" }) :=
  loadFromEnv_cross_convention envCross s0 0 1 (by decide) "proj-1" "tok-2"
    (by decide) (by decide)

/-- Counterexample to C7 as stated: in `envRuntimeShadow` the Vite naming
convention supplies a project id through `process.env`, yet the resolved
project id is the runtime-injected global's value for the earlier
standard key, because precedence between sources is applied per key, not
per whole step. -/
theorem runtime_shadow_counterexample :
    isTruthy (envRuntimeShadow.processEnv "VITE_GCP_PROJECT_ID") = true ∧
    envRuntimeShadow.windowEnv "GCP_PROJECT_ID" = some "runtime-pid" ∧
    scanKeys envRuntimeShadow pidKeys = some "runtime-pid" ∧
    ¬ scanKeys envRuntimeShadow pidKeys = some "build-pid" := by
  decide

/-- C7 amended: the precedence among the three sources holds per key:
for any single key, the runtime-injected global never supplies the value
when `process.env` or `import.meta.env` holds a truthy value for that
same key. -/
theorem getEnvValue_window_last (env : EnvSources) (key : String)
    (h : isTruthy (env.processEnv key) = true ∨
      isTruthy (env.importMetaEnv key) = true) :
    getEnvValue env key = env.processEnv key ∨
      (isTruthy (env.processEnv key) = false ∧
        getEnvValue env key = env.importMetaEnv key) := by
  by_cases h1 : isTruthy (env.processEnv key) = true
  · exact Or.inl (by simp [getEnvValue, h1])
  · have h2 : isTruthy (env.importMetaEnv key) = true := by
      rcases h with h | h
      · exact absurd h h1
      · exact h
    exact Or.inr ⟨by simpa using h1, by simp [getEnvValue, h1, h2]⟩

/-- Witness for the amended C7 at a concrete environment and key. -/
theorem getEnvValue_window_last_witness :
    getEnvValue envBoth "GCP_PROJECT_ID" = envBoth.processEnv "GCP_PROJECT_ID" ∨
      (isTruthy (envBoth.processEnv "GCP_PROJECT_ID") = false ∧
        getEnvValue envBoth "GCP_PROJECT_ID" = envBoth.importMetaEnv "GCP_PROJECT_ID") :=
  getEnvValue_window_last envBoth "GCP_PROJECT_ID" (Or.inl (by decide))

/-- C9: `setSecrets` overwrites both fields with its arguments, persists
both to session storage, and lowers the env-managed flag, whatever the
prior state (in particular a state produced by a successful env load). -/
theorem setSecrets_spec (pid token : String) (s : SecretsState) :
    setSecrets pid token s =
      { projectId := pid
        accessToken := token
        isEnvManaged := false
        storedProjectId := some pid
        storedAccessToken := some token } := rfl

/-! ## Claims about the log normalizer -/

/-- `a || b` yields the left value when it is truthy. -/
theorem orTruthy_of_truthy (a : Option String) (b s : String)
    (h : a = some s) (hs : s ≠ "") : orTruthy a b = s := by
  subst h
  simp [orTruthy, hs]

/-- `a || b` falls through when the left value is falsy. -/
theorem orTruthy_of_falsy (a : Option String) (b : String)
    (h : isTruthy a = false) : orTruthy a b = b := by
  cases a <;> simp_all [orTruthy, isTruthy]

/-- A native entry whose `module_id` label is present but empty while
`service_name` holds a value. -/
def entryEmptyModuleId : GCPEntry :=
  { textPayload := none
    jsonPayload := none
    resource := some
      { type := none
        labels := some
          { module_id := some ""
            service_name := some "svc"
            cluster_name := none } }
    timestamp := none
    severity := none
    trace := none }

/-- A native entry with only a `module_id` label. -/
def entryModuleId : GCPEntry :=
  { textPayload := none
    jsonPayload := none
    resource := some
      { type := none
        labels := some
          { module_id := some "mod-1"
            service_name := none
            cluster_name := none } }
    timestamp := none
    severity := none
    trace := none }

/-- A native entry with no labels and resource type `gce_instance`. -/
def entryGce : GCPEntry :=
  { textPayload := none
    jsonPayload := none
    resource := some { type := some "gce_instance", labels := none }
    timestamp := none
    severity := none
    trace := none }

/-- A native entry with no payloads, no resource, no severity. -/
def entryBare : GCPEntry :=
  { textPayload := none
    jsonPayload := none
    resource := none
    timestamp := none
    severity := none
    trace := none }

/-- Counterexample to C2 as stated: in `entryEmptyModuleId` the first
*present* label in the precedence chain is `module_id` (with value `""`),
yet the normalized service is the later `service_name` value, because the
JS `||` chain skips present-but-empty strings. -/
theorem service_precedence_counterexample :
    moduleIdOf entryEmptyModuleId = some "" ∧
    (mapGCPEntry entryEmptyModuleId).service = "svc" ∧
    "svc" ≠ "" := by
  refine ⟨rfl, rfl, by decide⟩

/-- C2 amended: the normalized service is the first present *and
non-empty* value of `module_id`, `service_name`, `cluster_name`,
`resource.type`, and `"gcp-service"` when all four are absent or empty. -/
theorem service_precedence (e : GCPEntry) :
    (∀ m, moduleIdOf e = some m → m ≠ "" → (mapGCPEntry e).service = m) ∧
    (isTruthy (moduleIdOf e) = false →
      ∀ n, serviceNameOf e = some n → n ≠ "" → (mapGCPEntry e).service = n) ∧
    (isTruthy (moduleIdOf e) = false → isTruthy (serviceNameOf e) = false →
      ∀ c, clusterNameOf e = some c → c ≠ "" → (mapGCPEntry e).service = c) ∧
    (isTruthy (moduleIdOf e) = false → isTruthy (serviceNameOf e) = false →
      isTruthy (clusterNameOf e) = false →
      ∀ ty, resourceTypeOf e = some ty → ty ≠ "" → (mapGCPEntry e).service = ty) ∧
    (isTruthy (moduleIdOf e) = false → isTruthy (serviceNameOf e) = false →
      isTruthy (clusterNameOf e) = false → isTruthy (resourceTypeOf e) = false →
      (mapGCPEntry e).service = "gcp-service") := by
  refine ⟨?_, ?_, ?_, ?_, ?_⟩
  · intro m hm hne
    simp only [mapGCPEntry, serviceOf]
    rw [orTruthy_of_truthy _ _ _ hm hne]
  · intro h1 n hn hne
    simp only [mapGCPEntry, serviceOf]
    rw [orTruthy_of_falsy _ _ h1, orTruthy_of_truthy _ _ _ hn hne]
  · intro h1 h2 c hc hne
    simp only [mapGCPEntry, serviceOf]
    rw [orTruthy_of_falsy _ _ h1, orTruthy_of_falsy _ _ h2,
      orTruthy_of_truthy _ _ _ hc hne]
  · intro h1 h2 h3 ty hty hne
    simp only [mapGCPEntry, serviceOf]
    rw [orTruthy_of_falsy _ _ h1, orTruthy_of_falsy _ _ h2,
      orTruthy_of_falsy _ _ h3, orTruthy_of_truthy _ _ _ hty hne]
  · intro h1 h2 h3 h4
    simp only [mapGCPEntry, serviceOf]
    rw [orTruthy_of_falsy _ _ h1, orTruthy_of_falsy _ _ h2,
      orTruthy_of_falsy _ _ h3, orTruthy_of_falsy _ _ h4]

/-- Witness for the amended C2: a `module_id` hit, the `resource.type`
fallback, and the literal fallback, at concrete entries. -/
theorem service_precedence_witness :
    (mapGCPEntry entryModuleId).service = "mod-1" ∧
    (mapGCPEntry entryGce).service = "gce_instance" ∧
    (mapGCPEntry entryBare).service = "gcp-service" :=
  ⟨(service_precedence entryModuleId).1 "mod-1" rfl (by decide),
   (service_precedence entryGce).2.2.2.1 rfl rfl rfl "gce_instance" rfl (by decide),
   (service_precedence entryBare).2.2.2.2 rfl rfl rfl rfl⟩

/-- A native entry whose `textPayload` is present but empty, with no
`jsonPayload`. -/
def entryEmptyText : GCPEntry :=
  { textPayload := some ""
    jsonPayload := none
    resource := none
    timestamp := none
    severity := none
    trace := none }

/-- A native entry with only a `textPayload`. -/
def entryText : GCPEntry :=
  { textPayload := some "hello"
    jsonPayload := none
    resource := none
    timestamp := none
    severity := none
    trace := none }

/-- A native entry with `jsonPayload` equal to the object `\x7ba:1\x7d`
and no `textPayload`. -/
def entryJsonPayload : GCPEntry :=
  { textPayload := none
    jsonPayload := some (Jso.obj [("a", Jso.num 1)])
    resource := none
    timestamp := none
    severity := none
    trace := none }

/-- Counterexample to C3 as stated: `entryEmptyText` has a present
`textPayload` (the empty string), yet its normalized message is the
placeholder — which moreover is spelled `"No message content"`, not the
claimed literal `"no message content"`. -/
theorem message_selection_counterexample :
    entryEmptyText.textPayload = some "" ∧
    (mapGCPEntry entryEmptyText).message = "No message content" ∧
    "No message content" ≠ "" ∧
    "No message content" ≠ "no message content" := by
  refine ⟨rfl, rfl, by decide, by decide⟩

/-- C3 amended: the normalized message is `textPayload` verbatim when it
is present and non-empty; otherwise the `JSON.stringify` serialization of
`jsonPayload` when that is present; otherwise the literal
`"No message content"`; and the mapping keeps one output entry per input
entry. -/
theorem message_selection (e : GCPEntry) (es : List GCPEntry) :
    (∀ t, e.textPayload = some t → t ≠ "" → (mapGCPEntry e).message = t) ∧
    (isTruthy e.textPayload = false →
      ∀ j, e.jsonPayload = some j → (mapGCPEntry e).message = stringify j) ∧
    (isTruthy e.textPayload = false → e.jsonPayload = none →
      (mapGCPEntry e).message = "No message content") ∧
    (es.map mapGCPEntry).length = es.length := by
  refine ⟨?_, ?_, ?_, List.length_map es mapGCPEntry⟩
  · intro t ht hne
    simp only [mapGCPEntry, messageOf]
    rw [orTruthy_of_truthy _ _ _ ht hne]
  · intro h1 j hj
    simp only [mapGCPEntry, messageOf]
    rw [orTruthy_of_falsy _ _ h1, hj]
  · intro h1 h2
    simp only [mapGCPEntry, messageOf]
    rw [orTruthy_of_falsy _ _ h1, h2]

/-- Witness for the amended C3: a verbatim text payload, the serialized
`\x7ba:1\x7d` payload, the placeholder, and length preservation on a
two-entry list. -/
theorem message_selection_witness :
    (mapGCPEntry entryText).message = "hello" ∧
    (mapGCPEntry entryJsonPayload).message = stringify (Jso.obj [("a", Jso.num 1)]) ∧
    (mapGCPEntry entryBare).message = "No message content" ∧
    ([entryText, entryBare].map mapGCPEntry).length = 2 :=
  ⟨(message_selection entryText []).1 "hello" rfl (by decide),
   (message_selection entryJsonPayload []).2.1 rfl (Jso.obj [("a", Jso.num 1)]) rfl,
   (message_selection entryBare []).2.2.1 rfl rfl,
   (message_selection entryBare [entryText, entryBare]).2.2.2⟩

/-- The eight severity values of the `Severity` enum in types.ts. -/
def severityValues : List String :=
  ["DEBUG", "INFO", "NOTICE", "WARNING", "ERROR", "CRITICAL", "ALERT", "EMERGENCY"]

/-- A native entry carrying the GCP severity `DEFAULT`, which is outside
the eight-value enum, and a non-ISO timestamp. -/
def entryDefaultSeverity : GCPEntry :=
  { textPayload := some "boot"
    jsonPayload := none
    resource := none
    timestamp := some "yesterday at noon"
    severity := some "DEFAULT"
    trace := none }

/-- Counterexample to C8 as stated: the native mapping passes the
severity `"DEFAULT"` straight through, producing an entry whose severity
is not one of the eight enum values, and copies the non-ISO timestamp
verbatim. -/
theorem logentry_invariants_counterexample :
    (mapGCPEntry entryDefaultSeverity).severity = "DEFAULT" ∧
    (mapGCPEntry entryDefaultSeverity).severity ∉ severityValues ∧
    (mapGCPEntry entryDefaultSeverity).timestamp = some "yesterday at noon" := by
  refine ⟨rfl, by decide, rfl⟩

/-- C8 amended: neither production path validates its output. The native
mapping defaults severity to `"INFO"` only when the entry's severity is
absent or empty, passes any other severity string through unchanged, and
copies the timestamp verbatim; `parseLogs` returns whatever list the
JSON decode produced, with no validation of any field. -/
theorem logentry_passthrough (e : GCPEntry)
    (jsonParse : String → Option (List LogEntry)) (t : String) (d : List LogEntry) :
    (isTruthy e.severity = false → (mapGCPEntry e).severity = "INFO") ∧
    (∀ sv, e.severity = some sv → sv ≠ "" → (mapGCPEntry e).severity = sv) ∧
    (mapGCPEntry e).timestamp = e.timestamp ∧
    (t ≠ "" → jsonParse t = some d → parseLogs jsonParse (some t) = .ok d) := by
  refine ⟨?_, ?_, rfl, ?_⟩
  · intro h
    simp only [mapGCPEntry]
    rw [orTruthy_of_falsy _ _ h]
  · intro sv hsv hne
    simp only [mapGCPEntry]
    rw [orTruthy_of_truthy _ _ _ hsv hne]
  · intro hne hp
    simp [parseLogs, isTruthy, hne, hp]

/-- Witness for the amended C8: the `"INFO"` default, the `"DEFAULT"`
passthrough, and `parseLogs` forwarding a decoded entry whose severity is
not a `Severity` value. -/
theorem logentry_passthrough_witness :
    (mapGCPEntry entryBare).severity = "INFO" ∧
    (mapGCPEntry entryDefaultSeverity).severity = "DEFAULT" ∧
    parseLogs
        (fun _ => some [{ timestamp := none, severity := "BANANA",
                          service := "s", message := "m", traceId := none }])
        (some "[]") =
      .ok [{ timestamp := none, severity := "BANANA",
             service := "s", message := "m", traceId := none }] :=
  ⟨(logentry_passthrough entryBare (fun _ => none) "x" []).1 rfl,
   (logentry_passthrough entryDefaultSeverity (fun _ => none) "x" []).2.1
     "DEFAULT" rfl (by decide),
   (logentry_passthrough entryBare
       (fun _ => some [{ timestamp := none, severity := "BANANA",
                         service := "s", message := "m", traceId := none }])
       "[]"
       [{ timestamp := none, severity := "BANANA",
          service := "s", message := "m", traceId := none }]).2.2.2
     (by decide) rfl⟩

/-! ## Claims about error propagation and the report prompt -/

/-- `sub` occurs as a contiguous substring of `s`. -/
def strContains (s sub : String) : Prop :=
  ∃ a b, s = (a ++ sub) ++ b

/-- C4: a non-2xx logging-API response propagates an error whose message
contains the response status code and the response body text, while a
2xx response with an absent or empty `entries` list yields a successful
empty sequence. -/
theorem fetchGCPLogs_spec (r : GCPResponse) :
    (respOk r = false →
      ∃ msg, fetchGCPLogs r = .error msg ∧
        strContains msg (toString r.status) ∧ strContains msg r.body) ∧
    (respOk r = true → (r.entries = none ∨ r.entries = some []) →
      fetchGCPLogs r = .ok []) := by
  constructor
  · intro h
    refine ⟨"GCP API Error (" ++ toString r.status ++ "): " ++ r.body,
      by simp [fetchGCPLogs, h], ?_, ?_⟩
    · refine ⟨"GCP API Error (", "): " ++ r.body, ?_⟩
      simp [String.append_assoc]
    · refine ⟨("GCP API Error (" ++ toString r.status) ++ "): ", "", ?_⟩
      simp
  · intro h he
    rcases he with he | he <;> simp [fetchGCPLogs, h, he]

/-- Witness for C4: a 403 with body text propagates, a 200 with no
`entries` field succeeds with the empty sequence. -/
theorem fetchGCPLogs_spec_witness :
    (∃ msg, fetchGCPLogs { status := 403, body := "permission denied", entries := none } =
        .error msg ∧
      strContains msg (toString 403) ∧ strContains msg "permission denied") ∧
    fetchGCPLogs { status := 200, body := "", entries := none } = .ok [] :=
  ⟨(fetchGCPLogs_spec { status := 403, body := "permission denied", entries := none }).1
     (by decide),
   (fetchGCPLogs_spec { status := 200, body := "", entries := none }).2
     (by decide) (Or.inl rfl)⟩

/-- Counterexample to C5 as stated: `generateCostReport` does not recover
from malformed model output — it throws on falsy `response.text` and lets
the `JSON.parse` exception escape on non-JSON text. -/
theorem cost_report_throws_counterexample :
    generateCostReport (fun _ => none) none =
      .error "Failed to generate cost report" ∧
    (generateCostReport (fun _ => none) (some "not json")).isOk = false :=
  ⟨rfl, rfl⟩

/-- C5 amended: `parseLogs` recovers from malformed model output with the
empty sequence and `generateReport` with a default summary, neither ever
throwing; `generateCostReport` instead throws on empty output and
propagates the `JSON.parse` exception on non-JSON output. -/
theorem ai_malformed_recovery
    (jpL : String → Option (List LogEntry))
    (jpR : String → Option AnalysisSummary)
    (jpC : String → Option CostReport)
    (rt : Option String) :
    (isTruthy rt = false → parseLogs jpL rt = .ok []) ∧
    (∀ t, rt = some t → t ≠ "" → jpL t = none → parseLogs jpL rt = .ok []) ∧
    (isTruthy rt = false →
      generateReport jpR rt = .ok ⟨"Could not generate report.", [], []⟩) ∧
    (∀ t, rt = some t → t ≠ "" → jpR t = none →
      generateReport jpR rt = .ok ⟨"Error parsing AI response.", [], []⟩) ∧
    (isTruthy rt = false →
      generateCostReport jpC rt = .error "Failed to generate cost report") ∧
    (∀ t, rt = some t → t ≠ "" → jpC t = none →
      (generateCostReport jpC rt).isOk = false) := by
  refine ⟨?_, ?_, ?_, ?_, ?_, ?_⟩
  · intro h
    simp [parseLogs, h]
  · intro t ht hne hp
    subst ht
    simp [parseLogs, isTruthy, hne, hp]
  · intro h
    simp [generateReport, h]
  · intro t ht hne hp
    subst ht
    simp [generateReport, isTruthy, hne, hp]
  · intro h
    simp [generateCostReport, h]
  · intro t ht hne hp
    subst ht
    have herr : generateCostReport jpC (some t) =
        .error "SyntaxError: JSON.parse failed" := by
      simp [generateCostReport, isTruthy, hne, hp]
    rw [herr]
    rfl

/-- Witness for the amended C5 at concrete decoders and response texts. -/
theorem ai_malformed_recovery_witness :
    parseLogs (fun _ => none) (some "not json") = .ok [] ∧
    generateReport (fun _ => none) (some "not json") =
      .ok ⟨"Error parsing AI response.", [], []⟩ ∧
    generateCostReport (fun _ => none) none =
      .error "Failed to generate cost report" :=
  ⟨(ai_malformed_recovery (fun _ => none) (fun _ => none) (fun _ => none)
      (some "not json")).2.1 "not json" rfl (by decide) rfl,
   (ai_malformed_recovery (fun _ => none) (fun _ => none) (fun _ => none)
      (some "not json")).2.2.2.1 "not json" rfl (by decide) rfl,
   (ai_malformed_recovery (fun _ => none) (fun _ => none) (fun _ => none)
      none).2.2.2.2.1 rfl⟩

/-- C10: the report prompt is built from at most the first 100 log
entries, so the prompt — and with it the produced summary, for any model
and decode — is unchanged by truncating the input to its first 100
entries, and agrees between any two inputs sharing those first 100. -/
theorem report_prompt_first_100 (model : String → Option String)
    (jsonParse : String → Option AnalysisSummary)
    (logs logs' : List LogEntry) :
    buildReportPrompt logs = buildReportPrompt (logs.take 100) ∧
    generateReportFromLogs model jsonParse logs =
      generateReportFromLogs model jsonParse (logs.take 100) ∧
    (logs.take 100 = logs'.take 100 →
      generateReportFromLogs model jsonParse logs =
        generateReportFromLogs model jsonParse logs') := by
  have h : ∀ l : List LogEntry, buildReportPrompt l = buildReportPrompt (l.take 100) := by
    intro l
    unfold buildReportPrompt logContext
    rw [List.take_take, min_self]
  refine ⟨h logs, by unfold generateReportFromLogs; rw [h logs], ?_⟩
  intro he
  simp only [generateReportFromLogs]
  rw [h logs, h logs', he]

/-- Witness for C10: two 101-entry sequences that differ only in their
final entry produce the same report for a concrete model and decode. -/
theorem report_prompt_first_100_witness :
    generateReportFromLogs (fun _ => none) (fun _ => none)
        (List.replicate 100 { timestamp := none, severity := "INFO",
                              service := "s", message := "m", traceId := none } ++
          [{ timestamp := none, severity := "ERROR",
             service := "s", message := "dropped", traceId := none }]) =
      generateReportFromLogs (fun _ => none) (fun _ => none)
        (List.replicate 100 { timestamp := none, severity := "INFO",
                              service := "s", message := "m", traceId := none } ++
          [{ timestamp := none, severity := "CRITICAL",
             service := "s", message := "also dropped", traceId := none }]) :=
  (report_prompt_first_100 (fun _ => none) (fun _ => none)
      (List.replicate 100 { timestamp := none, severity := "INFO",
                            service := "s", message := "m", traceId := none } ++
        [{ timestamp := none, severity := "ERROR",
           service := "s", message := "dropped", traceId := none }])
      (List.replicate 100 { timestamp := none, severity := "INFO",
                            service := "s", message := "m", traceId := none } ++
        [{ timestamp := none, severity := "CRITICAL",
           service := "s", message := "also dropped", traceId := none }])).2.2
    (by decide)

end CloudLog
